import Mathlib

/-!
Verification of the Ripio Trade example scripts' request-signing and
transport layer.

The development shallowly embeds the Python sources:
  * `ripio_api_utils.py` — `generate_signature`, `create_auth_headers`,
    `make_request`;
  * `test_auth.py` — the inline signing logic of `get_balances`;
  * `test_websocket.py` — the inline signing logic of `get_websocket_ticket`,
    the ticket-extraction logic, `main`'s dispatch, and the
    `connect_and_subscribe` receive loop.

Machine words are modelled as `Nat` reduced mod `2^32` where the SHA-256
rounds overflow; byte strings are `List Nat`; the wall clock and the network
are explicit parameters (a clock sample `now_ms : Nat`, a transport outcome
value); Python exceptions escaping a function are modelled with `Except`.
-/

/-- Truncate to a 32-bit word (Python/C `% 2**32`). -/
def w32 (n : Nat) : Nat := n % 4294967296

/-- 32-bit right rotation. -/
def rotr (n x : Nat) : Nat := w32 ((x >>> n) ||| (x <<< (32 - n)))

def bSig0 (x : Nat) : Nat := rotr 2 x ^^^ rotr 13 x ^^^ rotr 22 x

def bSig1 (x : Nat) : Nat := rotr 6 x ^^^ rotr 11 x ^^^ rotr 25 x

def sSig0 (x : Nat) : Nat := rotr 7 x ^^^ rotr 18 x ^^^ (x >>> 3)

def sSig1 (x : Nat) : Nat := rotr 17 x ^^^ rotr 19 x ^^^ (x >>> 10)

def chF (x y z : Nat) : Nat := (x &&& y) ^^^ ((4294967295 ^^^ x) &&& z)

def majF (x y z : Nat) : Nat := (x &&& y) ^^^ (x &&& z) ^^^ (y &&& z)

/-- The 64 SHA-256 round constants (FIPS 180-4), written in decimal. -/
def sha256K : List Nat :=
  [1116352408, 1899447441, 3049323471, 3921009573, 961987163,
   1508970993, 2453635748, 2870763221, 3624381080, 310598401,
   607225278, 1426881987, 1925078388, 2162078206, 2614888103,
   3248222580, 3835390401, 4022224774, 264347078, 604807628,
   770255983, 1249150122, 1555081692, 1996064986, 2554220882,
   2821834349, 2952996808, 3210313671, 3336571891, 3584528711,
   113926993, 338241895, 666307205, 773529912, 1294757372,
   1396182291, 1695183700, 1986661051, 2177026350, 2456956037,
   2730485921, 2820302411, 3259730800, 3345764771, 3516065817,
   3600352804, 4094571909, 275423344, 430227734, 506948616,
   659060556, 883997877, 958139571, 1322822218, 1537002063,
   1747873779, 1955562222, 2024104815, 2227730452, 2361852424,
   2428436474, 2756734187, 3204031479, 3329325298]

/-- The eight 32-bit words of a SHA-256 hash state. -/
structure Hash8 where
  a : Nat
  b : Nat
  c : Nat
  d : Nat
  e : Nat
  f : Nat
  g : Nat
  h : Nat
deriving Repr, DecidableEq

/-- The SHA-256 initial hash value (FIPS 180-4), written in decimal. -/
def sha256H0 : Hash8 :=
  ⟨1779033703, 3144134277, 1013904242, 2773480762,
   1359893119, 2600822924, 528734635, 1541459225⟩

/-- Big-endian 8-byte encoding of a natural number (mod `2^64`). -/
def be64 (n : Nat) : List Nat :=
  [n >>> 56 % 256, n >>> 48 % 256, n >>> 40 % 256, n >>> 32 % 256,
   n >>> 24 % 256, n >>> 16 % 256, n >>> 8 % 256, n % 256]

/-- Big-endian 4-byte encoding of a 32-bit word. -/
def be32 (n : Nat) : List Nat := [n >>> 24 % 256, n >>> 16 % 256, n >>> 8 % 256, n % 256]

/-- SHA-256 message padding: `0x80`, zeros to 56 mod 64, then the bit length. -/
def padMsg (m : List Nat) : List Nat :=
  m ++ 0x80 :: (List.replicate ((64 - (m.length + 9) % 64) % 64) 0 ++ be64 (8 * m.length))

/-- Split a byte list into 64-byte chunks. -/
def chunks64 (l : List Nat) : List (List Nat) :=
  if h : l = [] then [] else l.take 64 :: chunks64 (l.drop 64)
termination_by l.length
decreasing_by
  simp [List.length_drop]
  exact List.length_pos.mpr h

/-- The `i`-th big-endian 32-bit word of a 64-byte chunk. -/
def chunkWord (chunk : List Nat) (i : Nat) : Nat :=
  chunk.getD (4 * i) 0 * 16777216 + chunk.getD (4 * i + 1) 0 * 65536 +
    chunk.getD (4 * i + 2) 0 * 256 + chunk.getD (4 * i + 3) 0

/-- The 64-word SHA-256 message schedule of one chunk, most recent word first. -/
def scheduleRev (chunk : List Nat) : List Nat :=
  (List.range 48).foldl
    (fun w _ => w32 (sSig1 (w.getD 1 0) + w.getD 6 0 + sSig0 (w.getD 14 0) + w.getD 15 0) :: w)
    ((List.range 16).map (chunkWord chunk)).reverse

/-- One SHA-256 compression round, fed one `(k, w)` pair. -/
def roundStep (s : Hash8) (kw : Nat × Nat) : Hash8 :=
  let t1 := w32 (s.h + bSig1 s.e + chF s.e s.f s.g + kw.1 + kw.2)
  let t2 := w32 (bSig0 s.a + majF s.a s.b s.c)
  ⟨w32 (t1 + t2), s.a, s.b, s.c, w32 (s.d + t1), s.e, s.f, s.g⟩

/-- The SHA-256 compression function on one 64-byte chunk. -/
def compress (hs : Hash8) (chunk : List Nat) : Hash8 :=
  let f := (sha256K.zip (scheduleRev chunk).reverse).foldl roundStep hs
  ⟨w32 (hs.a + f.a), w32 (hs.b + f.b), w32 (hs.c + f.c), w32 (hs.d + f.d),
   w32 (hs.e + f.e), w32 (hs.f + f.f), w32 (hs.g + f.g), w32 (hs.h + f.h)⟩

/-- SHA-256 of a byte list (Python `hashlib.sha256`), as the 32 digest bytes. -/
def sha256 (msg : List Nat) : List Nat :=
  let hs := (chunks64 (padMsg msg)).foldl compress sha256H0
  be32 hs.a ++ be32 hs.b ++ be32 hs.c ++ be32 hs.d ++
    be32 hs.e ++ be32 hs.f ++ be32 hs.g ++ be32 hs.h

/-- HMAC-SHA256 (Python `hmac.new(key, msg, hashlib.sha256).digest()`, RFC 2104). -/
def hmacSha256 (key msg : List Nat) : List Nat :=
  let k0 := if 64 < key.length then sha256 key else key
  let kp := k0 ++ List.replicate (64 - k0.length) 0
  sha256 ((kp.map (fun b => b ^^^ 0x5c)) ++ sha256 ((kp.map (fun b => b ^^^ 0x36)) ++ msg))

/-- UTF-8 encoding of one character, as bytes. -/
def utf8Ch (c : Char) : List Nat :=
  let n := c.toNat
  if n < 0x80 then [n]
  else if n < 0x800 then [0xC0 + n / 64, 0x80 + n % 64]
  else if n < 0x10000 then [0xE0 + n / 4096, 0x80 + (n / 64) % 64, 0x80 + n % 64]
  else [0xF0 + n / 262144, 0x80 + (n / 4096) % 64, 0x80 + (n / 64) % 64, 0x80 + n % 64]

/-- UTF-8 bytes of a string (Python `str.encode('utf-8')`). -/
def utf8 (s : String) : List Nat := s.data.flatMap utf8Ch

/-- The standard base64 alphabet. -/
def b64Alphabet : List Char :=
  "ABCDEFGHIJKLMNOPQRSTUVWXYZabcdefghijklmnopqrstuvwxyz0123456789+/".data

def b64c (n : Nat) : Char := b64Alphabet.getD n 'A'

/-- Standard base64 encoding with padding (Python `base64.b64encode`). -/
def b64encode : List Nat → String
  | [] => ""
  | [a] => String.mk [b64c (a / 4), b64c (a % 4 * 16), '=', '=']
  | [a, b] => String.mk [b64c (a / 4), b64c (a % 4 * 16 + b / 16), b64c (b % 16 * 4), '=']
  | a :: b :: c :: rest =>
      String.mk [b64c (a / 4), b64c (a % 4 * 16 + b / 16), b64c (b % 16 * 4 + c / 64),
        b64c (c % 64)] ++ b64encode rest

/-- `ripio_api_utils.generate_signature` (lines 11-35): the message is the
f-string `f"{timestamp}{method}{path}{payload}"`, the signature is HMAC-SHA256
with the UTF-8 secret as key, and the result is its base64 encoding.
At every call site in the repository `timestamp` is already a decimal string. -/
def generate_signature (api_secret timestamp method path : String) (payload : String := "") :
    String :=
  let message := timestamp ++ method ++ path ++ payload
  let signature := hmacSha256 (utf8 api_secret) (utf8 message)
  b64encode signature

theorem generate_signature_eq (k t m p pl : String) :
    generate_signature k t m p pl = b64encode (hmacSha256 (utf8 k) (utf8 (t ++ m ++ p ++ pl))) :=
  rfl

/-- `ripio_api_utils.create_auth_headers` (lines 37-61).  The single wall-clock
read `int(time.time() * 1000)` is the explicit parameter `now_ms`; the function
formats it once and uses that one string both in the `timestamp` header and in
the signature, returning the header list together with the timestamp. -/
def create_auth_headers (api_key api_secret method path payload : String) (now_ms : Nat) :
    List (String × String) × String :=
  let timestamp := Nat.repr now_ms
  let signature := generate_signature api_secret timestamp method path payload
  ([("Content-Type", "application/json"), ("Authorization", api_key),
    ("timestamp", timestamp), ("signature", signature)], timestamp)

/-- JSON values, as passed to `json.dumps` by the example scripts (dicts keep
insertion order, numbers at the call sites are integers or strings). -/
inductive Json where
  | null
  | bool (b : Bool)
  | num (n : Int)
  | str (s : String)
  | arr (items : List Json)
  | obj (members : List (String × Json))

/-- Python truthiness (`if data:`) of a JSON value. -/
def pyTruthy : Json → Bool
  | .null => false
  | .bool b => b
  | .num n => n != 0
  | .str s => s != ""
  | .arr items => !items.isEmpty
  | .obj members => !members.isEmpty

/-- Python truthiness of an optional argument defaulting to `None`. -/
def pyTruthyOpt : Option Json → Bool
  | none => false
  | some j => pyTruthy j

def hexDigit (n : Nat) : Char := "0123456789abcdef".data.getD n '0'

def u4hex (n : Nat) : List Char :=
  [hexDigit (n / 4096 % 16), hexDigit (n / 256 % 16), hexDigit (n / 16 % 16), hexDigit (n % 16)]

/-- `json.dumps` escaping of one character with the default `ensure_ascii=True`:
everything outside `0x20`-`0x7e` is escaped, code points above `0xFFFF` as a
surrogate pair. -/
def jsonEscapeChar (c : Char) : List Char :=
  let n := c.toNat
  if c = '"' then ['\\', '"']
  else if c = '\\' then ['\\', '\\']
  else if n = 8 then ['\\', 'b']
  else if n = 9 then ['\\', 't']
  else if n = 10 then ['\\', 'n']
  else if n = 12 then ['\\', 'f']
  else if n = 13 then ['\\', 'r']
  else if n < 32 then '\\' :: 'u' :: u4hex n
  else if n < 127 then [c]
  else if n < 65536 then '\\' :: 'u' :: u4hex n
  else ('\\' :: 'u' :: u4hex (55296 + (n - 65536) / 1024)) ++
       ('\\' :: 'u' :: u4hex (56320 + (n - 65536) % 1024))

/-- A JSON string literal as produced by `json.dumps`. -/
def jsonQuote (s : String) : String := String.mk ('"' :: s.data.flatMap jsonEscapeChar ++ ['"'])

mutual

/-- `json.dumps(v, separators=(isep, ksep))` without indentation; the compact
form of `make_request` uses `isep = ","`, `ksep = ":"`, the default form used
by `websocket.send` uses `isep = ", "`, `ksep = ": "`. -/
def json_dumps_sep (isep ksep : String) : Json → String
  | .null => "null"
  | .bool true => "true"
  | .bool false => "false"
  | .num n => Int.repr n
  | .str s => jsonQuote s
  | .arr items => "[" ++ json_dumps_sep_items isep ksep items ++ "]"
  | .obj members => "\x7b" ++ json_dumps_sep_members isep ksep members ++ "\x7d"

def json_dumps_sep_items (isep ksep : String) : List Json → String
  | [] => ""
  | [x] => json_dumps_sep isep ksep x
  | x :: y :: rest => json_dumps_sep isep ksep x ++ isep ++ json_dumps_sep_items isep ksep (y :: rest)

def json_dumps_sep_members (isep ksep : String) : List (String × Json) → String
  | [] => ""
  | [(k, v)] => jsonQuote k ++ ksep ++ json_dumps_sep isep ksep v
  | (k, v) :: m :: rest =>
      jsonQuote k ++ ksep ++ json_dumps_sep isep ksep v ++ isep ++
        json_dumps_sep_members isep ksep (m :: rest)

end

/-- `json.dumps(v, separators=(',', ':'))` — the compact payload serialization
of `make_request`. -/
def json_dumps_compact (v : Json) : String := json_dumps_sep "," ":" v

/-- `json.dumps(v)` with the default separators `(', ', ': ')` — used for the
WebSocket subscription message. -/
def json_dumps_default (v : Json) : String := json_dumps_sep ", " ": " v

def indentSpaces (lvl : Nat) : String := String.mk (List.replicate (2 * lvl) ' ')

mutual

/-- `json.dumps(v, indent=2)` at nesting level `lvl` — the pretty form used in
the error-reporting prints. -/
def json_dumps_ind (lvl : Nat) : Json → String
  | .null => "null"
  | .bool true => "true"
  | .bool false => "false"
  | .num n => Int.repr n
  | .str s => jsonQuote s
  | .arr [] => "[]"
  | .arr (x :: rest) =>
      "[\n" ++ json_dumps_ind_items (lvl + 1) (x :: rest) ++ "\n" ++ indentSpaces lvl ++ "]"
  | .obj [] => "\x7b\x7d"
  | .obj (m :: rest) =>
      "\x7b\n" ++ json_dumps_ind_members (lvl + 1) (m :: rest) ++ "\n" ++ indentSpaces lvl ++ "\x7d"

def json_dumps_ind_items (lvl : Nat) : List Json → String
  | [] => ""
  | [x] => indentSpaces lvl ++ json_dumps_ind lvl x
  | x :: y :: rest =>
      indentSpaces lvl ++ json_dumps_ind lvl x ++ ",\n" ++ json_dumps_ind_items lvl (y :: rest)

def json_dumps_ind_members (lvl : Nat) : List (String × Json) → String
  | [] => ""
  | [(k, v)] => indentSpaces lvl ++ jsonQuote k ++ ": " ++ json_dumps_ind lvl v
  | (k, v) :: m :: rest =>
      indentSpaces lvl ++ jsonQuote k ++ ": " ++ json_dumps_ind lvl v ++ ",\n" ++
        json_dumps_ind_members lvl (m :: rest)

end

/-- `json.dumps(v, indent=2)` as printed by the error-handling branches. -/
def json_dumps_indent2 (v : Json) : String := json_dumps_ind 0 v

/-- One HTTP request as handed to the `requests` library: `requests.get`
attaches `params` to the URL as a query string and sends no body;
`requests.post`/`requests.delete` send `body` as the request body. -/
structure HttpRequest where
  method : String
  url : String
  params : List (String × String)
  headers : List (String × String)
  body : String

/-- The environment's answer to one HTTP request: either a response was
received (status code, raw text, and the result of trying to parse the body
as JSON), or the `requests` call raised a `RequestException` (transport
failure), possibly carrying an attached response. -/
inductive TransportOutcome where
  | resp (status : Nat) (text : String) (jsonBody : Option Json)
  | exc (msg : String) (excResp : Option (Nat × String × Option Json))

/-- What one `make_request` call produces: the request it issued (`none` for
an unsupported method), the signed path and payload, the Python return value
(`Except.error` models an exception escaping the function), and the lines it
printed, in order. -/
structure CallResult where
  request : Option HttpRequest
  signedPath : String
  signedPayload : String
  ret : Except String (Option Json)
  log : List String

/-- The response-handling tail of `ripio_api_utils.make_request`
(lines 101-125).  On status 200 the parsed JSON is returned; a JSON parse
failure there is modelled as a propagating exception (under `requests` >= 2.27
it would instead be caught by the `RequestException` handler and yield `None`;
no claim depends on the 200 branch).  On any other status the function prints
the failure and the parsed or raw error body and returns `None`.  On a
`RequestException` it prints the exception and returns `None`; the attached
response's details are printed only when the response is truthy, and
`requests.Response.__bool__` is `status_code < 400`. -/
def make_request_handle : TransportOutcome → Except String (Option Json) × List String
  | .resp status text jsonBody =>
    let l0 := ["Response status code: " ++ Nat.repr status]
    if status = 200 then
      match jsonBody with
      | some j => (.ok (some j), l0)
      | none => (.error "JSONDecodeError", l0)
    else
      let l1 := l0 ++ ["API request failed with status code: " ++ Nat.repr status]
      match jsonBody with
      | some j => (.ok none, l1 ++ ["Error response: " ++ json_dumps_indent2 j])
      | none => (.ok none, l1 ++ ["Error response text: " ++ text])
  | .exc msg excResp =>
    let l0 := ["Error making request: " ++ msg]
    match excResp with
    | some (status, text, jsonBody) =>
      if status < 400 then
        let l1 := l0 ++ ["Response status code: " ++ Nat.repr status]
        match jsonBody with
        | some j => (.ok none, l1 ++ ["Error response: " ++ json_dumps_indent2 j])
        | none => (.ok none, l1 ++ ["Error response text: " ++ text])
      else (.ok none, l0)
    | none => (.ok none, l0)

/-- `ripio_api_utils.make_request` (lines 63-125).  The wall-clock sample and
the transport outcome are explicit parameters.  The payload is the compact
JSON dump of `data` when `data` is truthy, else the empty string; the same
`payload` string is signed (through `create_auth_headers`) and, for `POST` and
`DELETE`, transmitted as the request body, while `GET` sends `params` and no
body.  An unsupported method prints a message and returns `None` without
issuing a request. -/
def make_request (api_key api_secret method endpoint : String)
    (params : List (String × String)) (data : Option Json) (now_ms : Nat)
    (outcome : TransportOutcome) : CallResult :=
  let base_url := "https://api.ripiotrade.co/v4"
  let url := base_url ++ endpoint
  let path := "/v4" ++ endpoint
  let payload := match data with
    | some d => if pyTruthy d then json_dumps_compact d else ""
    | none => ""
  let ht := create_auth_headers api_key api_secret method path payload now_ms
  let headers := ht.1
  if method = "GET" then
    let h := make_request_handle outcome
    { request := some ⟨"GET", url, params, headers, ""⟩, signedPath := path,
      signedPayload := payload, ret := h.1, log := h.2 }
  else if method = "POST" then
    let h := make_request_handle outcome
    { request := some ⟨"POST", url, [], headers, payload⟩, signedPath := path,
      signedPayload := payload, ret := h.1, log := h.2 }
  else if method = "DELETE" then
    let h := make_request_handle outcome
    { request := some ⟨"DELETE", url, [], headers, payload⟩, signedPath := path,
      signedPayload := payload, ret := h.1, log := h.2 }
  else
    { request := none, signedPath := path, signedPayload := payload,
      ret := .ok none, log := ["Unsupported HTTP method: " ++ method] }

/-- The inline signature computation of `test_websocket.get_websocket_ticket`
(lines 26-38): `message = timestamp + method + '/v4/' + path` with
`method = "POST"` and `path = "ticket"`, HMAC-SHA256 under the UTF-8 secret,
base64-encoded. -/
def ws_ticket_signature (api_secret timestamp : String) : String :=
  let message := timestamp ++ "POST" ++ "/v4/" ++ "ticket"
  b64encode (hmacSha256 (utf8 api_secret) (utf8 message))

/-- The inline signature computation of `test_auth.get_balances`
(lines 26-38): `message = timestamp + method + '/v4/' + path` with
`method = "GET"` and `path = "user/balances/"`. -/
def get_balances_signature (api_secret timestamp : String) : String :=
  let message := timestamp ++ "GET" ++ "/v4/" ++ "user/balances/"
  b64encode (hmacSha256 (utf8 api_secret) (utf8 message))

/-- The connection headers built inline by `test_websocket.connect_and_subscribe`
(lines 81-101): `method = "GET"`, `path = "ws"`, message
`timestamp + method + '/v4/' + path`; no `Content-Type` header here. -/
def ws_connect_headers (api_key api_secret timestamp : String) : List (String × String) :=
  let message := timestamp ++ "GET" ++ "/v4/" ++ "ws"
  let signature := b64encode (hmacSha256 (utf8 api_secret) (utf8 message))
  [("Authorization", api_key), ("timestamp", timestamp), ("signature", signature)]

/-- Key lookup in a JSON object (`'k' in d` / `d['k']` on a parsed dict).
The scripts only apply this to object-valued response bodies; in Python a
non-dict body would make the membership test mean something else or raise,
and in every such case the ticket flow still yields no usable ticket. -/
def jsonMember (j : Json) (k : String) : Option Json :=
  match j with
  | .obj members => (members.find? (fun m => m.1 = k)).map (fun m => m.2)
  | _ => none

/-- The environment's answer to the ticket request of
`test_websocket.get_websocket_ticket`: a response (status, parse attempt) or a
`RequestException`. -/
inductive WsTicketOutcome where
  | resp (status : Nat) (jsonBody : Option Json)
  | exc (msg : String)

/-- The value computed by `test_websocket.get_websocket_ticket` (lines 49-74):
`raise_for_status` turns statuses 400-599 into a caught `HTTPError`, so the
function returns `None`; a body whose parse fails raises out of the function
(modelled as `.error`); a parsed body is searched for `data.ticket`, returning
that field (whatever JSON value it is) or `None` when absent. -/
def get_websocket_ticket : WsTicketOutcome → Except String (Option Json)
  | .exc _ => .ok none
  | .resp status jsonBody =>
    if 400 ≤ status ∧ status < 600 then .ok none
    else
      match jsonBody with
      | none => .error "JSONDecodeError"
      | some data =>
        match jsonMember data "data" with
        | none => .ok none
        | some d =>
          match jsonMember d "ticket" with
          | none => .ok none
          | some t => .ok (some t)

/-- The observable steps of `test_websocket.main` after the credential check. -/
inductive MainAction where
  | requestTicket
  | connectAndSubscribe (ticket : Json)
  | reportTicketFailure

def isConnectAction : MainAction → Bool
  | .connectAndSubscribe _ => true
  | _ => false

/-- Whether a run of `main` ever invoked `connect_and_subscribe`. -/
def invokesConnect (l : List MainAction) : Bool := l.any isConnectAction

/-- `test_websocket.main` (lines 136-152), from the point where credentials
exist: request a ticket; if the result is truthy, call `connect_and_subscribe`
with it, else print the failure message.  The second component is an
exception escaping `main` (from a ticket-body parse failure). -/
def ws_main (o : WsTicketOutcome) : List MainAction × Option String :=
  match get_websocket_ticket o with
  | .error e => ([.requestTicket], some e)
  | .ok none => ([.requestTicket, .reportTicketFailure], none)
  | .ok (some t) =>
    if pyTruthy t then ([.requestTicket, .connectAndSubscribe t], none)
    else ([.requestTicket, .reportTicketFailure], none)

/-- The environment's answer to one `websocket.recv()` bounded by
`asyncio.wait_for(..., timeout=1.0)`: a message, a timeout, or an exception. -/
inductive WsRecv where
  | msg (s : String)
  | timeout
  | err (e : String)

def isRecvErr : WsRecv → Bool
  | .err _ => true
  | _ => false

/-- The observable events of one `connect_and_subscribe` run.  `socketClosed`
is the release performed by the `async with` block on any exit of its body;
`errorCaught` is the outer `except` handler's print. -/
inductive WsEvent where
  | connected (headers : List (String × String))
  | subscribeSent (payload : String)
  | subAckReceived (response : String)
  | recvAttempt (timeoutMs : Nat)
  | gotMessage (m : String)
  | recvTimeout
  | socketClosed
  | errorCaught (e : String)

def isRecvAttempt : WsEvent → Bool
  | .recvAttempt _ => true
  | _ => false

def isErrorCaught : WsEvent → Bool
  | .errorCaught _ => true
  | _ => false

def recvAttemptCount (l : List WsEvent) : Nat := l.countP isRecvAttempt

def hasErrorCaught (l : List WsEvent) : Bool := l.any isErrorCaught

/-- The receive loop `for _ in range(3)` of `connect_and_subscribe`
(lines 124-129): each iteration waits on `recv` with `timeout=1.0` (1000 ms);
a message or a timeout lets the loop continue; an exception aborts it,
carrying the exception out. -/
def streamLoop (stream : Nat → WsRecv) : Nat → Nat → List WsEvent × Option String
  | _, 0 => ([], none)
  | i, k + 1 =>
    match stream i with
    | .msg m =>
      let r := streamLoop stream (i + 1) k
      (.recvAttempt 1000 :: .gotMessage m :: r.1, r.2)
    | .timeout =>
      let r := streamLoop stream (i + 1) k
      (.recvAttempt 1000 :: .recvTimeout :: r.1, r.2)
    | .err e => ([.recvAttempt 1000], some e)

/-- The JSON control message sent by `connect_and_subscribe` (lines 108-116),
serialized with the default `json.dumps` separators. -/
def ws_subscribe_payload (ticket : Json) (now_ms : Nat) : String :=
  json_dumps_default (Json.obj
    [("method", Json.str "subscribe"), ("topics", Json.arr [Json.str "balance"]),
     ("ticket", ticket), ("id", Json.num now_ms)])

/-- `test_websocket.connect_and_subscribe` (lines 76-134) as its event trace.
`connect` is the outcome of `websockets.connect`; `subAck` is the outcome of
the subscription send/ack exchange (an exception there leaves the `async
with` body, which closes the socket before the outer handler prints); the
streaming loop then runs with a budget of 3 receive attempts, after which the
`async with` block closes the socket; an exception mid-stream also closes the
socket on the way to the handler. -/
def connect_and_subscribe (ticket : Json) (api_key api_secret : String) (now_ms : Nat)
    (connect : Except String Unit) (subAck : Except String String)
    (stream : Nat → WsRecv) : List WsEvent :=
  let timestamp := Nat.repr now_ms
  let headers := ws_connect_headers api_key api_secret timestamp
  match connect with
  | .error e => [.errorCaught e]
  | .ok _ =>
    match subAck with
    | .error e =>
      [.connected headers, .subscribeSent (ws_subscribe_payload ticket now_ms),
       .socketClosed, .errorCaught e]
    | .ok ack =>
      let r := streamLoop stream 0 3
      match r.2 with
      | none =>
        [.connected headers, .subscribeSent (ws_subscribe_payload ticket now_ms),
         .subAckReceived ack] ++ r.1 ++ [.socketClosed]
      | some e =>
        [.connected headers, .subscribeSent (ws_subscribe_payload ticket now_ms),
         .subAckReceived ack] ++ r.1 ++ [.socketClosed, .errorCaught e]

/-- A stream on which every receive attempt times out. -/
def allTimeouts : Nat → WsRecv := fun _ => WsRecv.timeout

/-- Claim C1: for every secret, timestamp, method, path and payload,
`generate_signature` equals the base64 encoding (standard alphabet, with
padding) of the raw HMAC-SHA256 digest keyed by the UTF-8 bytes of the secret
over the UTF-8 bytes of the delimiter-free concatenation
`str(timestamp_ms) + method + path + payload`. -/
theorem generate_signature_is_b64_hmac_of_concat (secret : String) (timestamp_ms : Nat)
    (method path payload : String) :
    generate_signature secret (Nat.repr timestamp_ms) method path payload =
      b64encode (hmacSha256 (utf8 secret)
        (utf8 (Nat.repr timestamp_ms ++ (method ++ (path ++ payload))))) := by
  rw [generate_signature_eq]
  simp only [String.append_assoc]

/-- Claim C3: `generate_signature` is a pure function of its five inputs:
identical inputs give identical output.  The embedding is a function of
exactly the five arguments — the Python body reads no global state and uses
no randomness — so determinism is congruence. -/
theorem generate_signature_deterministic (s1 t1 m1 p1 pl1 s2 t2 m2 p2 pl2 : String)
    (hs : s1 = s2) (ht : t1 = t2) (hm : m1 = m2) (hp : p1 = p2) (hpl : pl1 = pl2) :
    generate_signature s1 t1 m1 p1 pl1 = generate_signature s2 t2 m2 p2 pl2 := by
  subst hs ht hm hp hpl
  rfl

theorem generate_signature_deterministic_witness :
    generate_signature "s3cr3t" "1700000000000" "GET" "/v4/orders" "" =
      generate_signature "s3cr3t" "1700000000000" "GET" "/v4/orders" "" :=
  generate_signature_deterministic _ _ _ _ _ _ _ _ _ _ rfl rfl rfl rfl rfl

/-- Claim C4: `create_auth_headers` samples the wall clock once (the single
`now_ms` parameter of the embedding), and returns exactly the four headers
`Content-Type`, `Authorization`, `timestamp`, `signature`, where the
`timestamp` header value, the returned timestamp and the timestamp string fed
into the signature computation are all the same string `str(now_ms)`. -/
theorem create_auth_headers_exact (api_key api_secret method path payload : String)
    (now_ms : Nat) :
    create_auth_headers api_key api_secret method path payload now_ms =
      ([("Content-Type", "application/json"), ("Authorization", api_key),
        ("timestamp", Nat.repr now_ms),
        ("signature", generate_signature api_secret (Nat.repr now_ms) method path payload)],
       Nat.repr now_ms) :=
  rfl

/-- Claim C7: the signing logic duplicated inline at the two call sites agrees
with the shared signer: the `get_websocket_ticket` inline signature over
`timestamp + 'POST' + '/v4/' + 'ticket'` equals
`generate_signature(secret, timestamp, 'POST', '/v4/ticket', '')`, and the
`get_balances` inline signature over `timestamp + 'GET' + '/v4/' +
'user/balances/'` equals
`generate_signature(secret, timestamp, 'GET', '/v4/user/balances/', '')`. -/
theorem inline_signatures_match_shared_signer (api_secret timestamp : String) :
    ws_ticket_signature api_secret timestamp =
        generate_signature api_secret timestamp "POST" "/v4/ticket" "" ∧
    get_balances_signature api_secret timestamp =
        generate_signature api_secret timestamp "GET" "/v4/user/balances/" "" := by
  have hv1 : ("/v4/" : String) ++ "ticket" = "/v4/ticket" := by decide
  have hv2 : ("/v4/" : String) ++ "user/balances/" = "/v4/user/balances/" := by decide
  constructor
  · show b64encode (hmacSha256 (utf8 api_secret)
        (utf8 (timestamp ++ "POST" ++ "/v4/" ++ "ticket"))) = _
    rw [generate_signature_eq,
      String.append_assoc (timestamp ++ "POST") "/v4/" "ticket", hv1, String.append_empty]
  · show b64encode (hmacSha256 (utf8 api_secret)
        (utf8 (timestamp ++ "GET" ++ "/v4/" ++ "user/balances/"))) = _
    rw [generate_signature_eq,
      String.append_assoc (timestamp ++ "GET") "/v4/" "user/balances/", hv2,
      String.append_empty]

/-- Claim C10: because the canonical message concatenates its fields without
delimiters, distinct `(path, payload)` pairs can sign to the same string: with
a fixed secret, timestamp and method, path `/ab` with empty payload and path
`/a` with payload `b` produce the identical signature. -/
theorem signature_collision_no_delimiters :
    generate_signature "secret" "1700000000000" "POST" "/ab" "" =
      generate_signature "secret" "1700000000000" "POST" "/a" "b" ∧
    (("/ab", "") : String × String) ≠ ("/a", "b") := by
  constructor
  · rw [generate_signature_eq, generate_signature_eq]
    have h : ("1700000000000" : String) ++ "POST" ++ "/ab" ++ "" =
        "1700000000000" ++ "POST" ++ "/a" ++ "b" := by decide
    rw [h]
  · decide

/-- Claim C2 counterexample: a call to `make_request` with method `GET` and a
non-empty body object signs the compact JSON of the data, but the issued
request (built by `requests.get` without a `data` argument) carries an empty
body, so the signed payload and the transmitted body differ. -/
theorem make_request_get_with_data_signs_untransmitted_payload :
    (make_request "k" "s" "GET" "/orders" [] (some (Json.obj [("a", Json.num 1)])) 0
        (TransportOutcome.resp 200 "" (some Json.null))).signedPayload = "\x7b\"a\":1\x7d" ∧
    Option.map HttpRequest.body
        (make_request "k" "s" "GET" "/orders" [] (some (Json.obj [("a", Json.num 1)])) 0
          (TransportOutcome.resp 200 "" (some Json.null))).request = some "" := by
  constructor
  · rfl
  · rfl

/-- Claim C2 (amended): for every `POST` or `DELETE` call to `make_request`
with a truthy body object `data`, the string signed as payload and the string
transmitted as the HTTP request body are the identical byte sequence, namely
the compact JSON serialization of `data` with `','`/`':'` separators. -/
theorem make_request_body_is_signed_compact_json (api_key api_secret method endpoint : String)
    (params : List (String × String)) (j : Json) (now_ms : Nat) (outcome : TransportOutcome)
    (hm : method = "POST" ∨ method = "DELETE") (hj : pyTruthy j = true) :
    (make_request api_key api_secret method endpoint params (some j) now_ms
        outcome).signedPayload = json_dumps_compact j ∧
    Option.map HttpRequest.body
        (make_request api_key api_secret method endpoint params (some j) now_ms
          outcome).request = some (json_dumps_compact j) := by
  rcases hm with h | h <;> subst h <;> simp [make_request, hj]

theorem make_request_body_is_signed_compact_json_witness :
    (make_request "k" "s" "POST" "/orders" []
        (some (Json.obj [("pair", Json.str "BTCUSD"), ("side", Json.str "buy")])) 0
        (TransportOutcome.resp 200 "" (some Json.null))).signedPayload =
      json_dumps_compact (Json.obj [("pair", Json.str "BTCUSD"), ("side", Json.str "buy")]) ∧
    Option.map HttpRequest.body
        (make_request "k" "s" "POST" "/orders" []
          (some (Json.obj [("pair", Json.str "BTCUSD"), ("side", Json.str "buy")])) 0
          (TransportOutcome.resp 200 "" (some Json.null))).request =
      some (json_dumps_compact (Json.obj [("pair", Json.str "BTCUSD"),
        ("side", Json.str "buy")])) :=
  make_request_body_is_signed_compact_json "k" "s" "POST" "/orders" [] _ 0 _
    (Or.inl rfl) (by decide)

/-- Claim C6 counterexample: a `GET` call through `make_request` that passes a
truthy body object has a non-empty signed payload, refuting "the payload over
which the signature is computed is the empty string" for every GET call. -/
theorem make_request_get_payload_not_always_empty :
    (make_request "k" "s" "GET" "/withdrawals" []
        (some (Json.obj [("currency_code", Json.str "BTC")])) 0
        (TransportOutcome.resp 200 "" (some Json.null))).signedPayload ≠ "" := by
  decide

/-- Claim C6 (amended): for every `GET` call through `make_request` whose body
argument is absent or falsy (as in every GET call site of the repository),
query parameters ride on the issued request and are excluded from the signed
payload — the signed payload is the empty string, the signed path is
`/v4 + endpoint`, the issued request's URL is the fixed host followed by the
signed path (they differ only by the host prefix), and the request body is
empty. -/
theorem make_request_get_request_shape (api_key api_secret endpoint : String)
    (params : List (String × String)) (data : Option Json) (now_ms : Nat)
    (outcome : TransportOutcome) (hd : pyTruthyOpt data = false) :
    (make_request api_key api_secret "GET" endpoint params data now_ms
        outcome).signedPayload = "" ∧
    (make_request api_key api_secret "GET" endpoint params data now_ms
        outcome).signedPath = "/v4" ++ endpoint ∧
    Option.map HttpRequest.url
        (make_request api_key api_secret "GET" endpoint params data now_ms
          outcome).request =
      some ("https://api.ripiotrade.co" ++
        (make_request api_key api_secret "GET" endpoint params data now_ms
          outcome).signedPath) ∧
    Option.map HttpRequest.params
        (make_request api_key api_secret "GET" endpoint params data now_ms
          outcome).request = some params ∧
    Option.map HttpRequest.body
        (make_request api_key api_secret "GET" endpoint params data now_ms
          outcome).request = some "" := by
  have hurl : ("https://api.ripiotrade.co/v4" : String) ++ endpoint =
      "https://api.ripiotrade.co" ++ ("/v4" ++ endpoint) := by
    rw [← String.append_assoc]
    have h2 : ("https://api.ripiotrade.co" : String) ++ "/v4" =
        "https://api.ripiotrade.co/v4" := by decide
    rw [h2]
  cases data with
  | none =>
    refine ⟨rfl, rfl, ?_, rfl, rfl⟩
    show some ("https://api.ripiotrade.co/v4" ++ endpoint) =
      some ("https://api.ripiotrade.co" ++ ("/v4" ++ endpoint))
    rw [hurl]
  | some d =>
    have hdf : pyTruthy d = false := by simpa [pyTruthyOpt] using hd
    refine ⟨?_, ?_, ?_, ?_, ?_⟩ <;> simp [make_request, hdf, hurl]

theorem make_request_get_request_shape_witness :
    pyTruthyOpt none = false ∧
    ((make_request "k" "s" "GET" "/user/balances/" [("page", "1")] none 0
        (TransportOutcome.resp 200 "" (some Json.null))).signedPayload = "" ∧
      (make_request "k" "s" "GET" "/user/balances/" [("page", "1")] none 0
        (TransportOutcome.resp 200 "" (some Json.null))).signedPath = "/v4" ++ "/user/balances/" ∧
      Option.map HttpRequest.url
          (make_request "k" "s" "GET" "/user/balances/" [("page", "1")] none 0
            (TransportOutcome.resp 200 "" (some Json.null))).request =
        some ("https://api.ripiotrade.co" ++
          (make_request "k" "s" "GET" "/user/balances/" [("page", "1")] none 0
            (TransportOutcome.resp 200 "" (some Json.null))).signedPath) ∧
      Option.map HttpRequest.params
          (make_request "k" "s" "GET" "/user/balances/" [("page", "1")] none 0
            (TransportOutcome.resp 200 "" (some Json.null))).request = some [("page", "1")] ∧
      Option.map HttpRequest.body
          (make_request "k" "s" "GET" "/user/balances/" [("page", "1")] none 0
            (TransportOutcome.resp 200 "" (some Json.null))).request = some "") :=
  ⟨rfl, make_request_get_request_shape "k" "s" "/user/balances/" [("page", "1")] none 0
    (TransportOutcome.resp 200 "" (some Json.null)) rfl⟩

/-- For the three supported methods, `make_request`'s return value and printed
lines are those of its response-handling tail. -/
theorem make_request_ret_log (api_key api_secret method endpoint : String)
    (params : List (String × String)) (data : Option Json) (now_ms : Nat)
    (outcome : TransportOutcome)
    (hm : method = "GET" ∨ method = "POST" ∨ method = "DELETE") :
    (make_request api_key api_secret method endpoint params data now_ms outcome).ret =
        (make_request_handle outcome).1 ∧
    (make_request api_key api_secret method endpoint params data now_ms outcome).log =
        (make_request_handle outcome).2 := by
  rcases hm with h | h | h <;> subst h <;> exact ⟨rfl, rfl⟩

/-- On any non-200 response the handler's first printed line reports the
status code, whatever the error body parsed to. -/
theorem handle_resp_head (status : Nat) (text : String) (jsonBody : Option Json)
    (hs : status ≠ 200) :
    (make_request_handle (TransportOutcome.resp status text jsonBody)).2.head? =
      some ("Response status code: " ++ Nat.repr status) := by
  cases jsonBody <;> simp [make_request_handle, hs]

/-- On a transport exception the handler's first printed line reports the
exception. -/
theorem handle_exc_head (msg : String) (excResp : Option (Nat × String × Option Json)) :
    (make_request_handle (TransportOutcome.exc msg excResp)).2.head? =
      some ("Error making request: " ++ msg) := by
  rcases excResp with _ | ⟨st, tx, jb⟩
  · simp [make_request_handle]
  · by_cases hlt : st < 400 <;> cases jb <;> simp [make_request_handle, hlt]

/-- The status-report line and the exception-report line can never coincide:
they start with different characters. -/
theorem resp_exc_log_heads_differ (status : Nat) (msg : String) :
    some ("Response status code: " ++ Nat.repr status) ≠
      some ("Error making request: " ++ msg) := by
  simp only [ne_eq, Option.some.injEq]
  intro h
  have hp : ("Response status code: " ++ Nat.repr status).data.head? = some 'R' := rfl
  rw [h] at hp
  have hq : ("Error making request: " ++ msg).data.head? = some 'E' := rfl
  rw [hp] at hq
  exact absurd (Option.some.inj hq) (by decide)

/-- Claim C5: for every `make_request` call (with a supported method), a
non-200 response and a transport exception both make the function return
`None` — the caller gets no parsed data and no exception escapes — and the
two failure outcomes are distinguished: the non-200 outcome reports the
status code and the parsed or raw error body, the transport outcome reports
the exception, and the two reports can never be confused (their first printed
lines always differ). -/
theorem make_request_failure_outcomes (api_key api_secret method endpoint : String)
    (params : List (String × String)) (data : Option Json) (now_ms : Nat)
    (status : Nat) (text : String) (jsonBody : Option Json) (msg : String)
    (excResp : Option (Nat × String × Option Json))
    (hm : method = "GET" ∨ method = "POST" ∨ method = "DELETE") (hs : status ≠ 200) :
    (make_request api_key api_secret method endpoint params data now_ms
        (TransportOutcome.resp status text jsonBody)).ret = Except.ok none ∧
    (make_request api_key api_secret method endpoint params data now_ms
        (TransportOutcome.exc msg excResp)).ret = Except.ok none ∧
    ("API request failed with status code: " ++ Nat.repr status) ∈
      (make_request api_key api_secret method endpoint params data now_ms
        (TransportOutcome.resp status text jsonBody)).log ∧
    (∀ j, jsonBody = some j → ("Error response: " ++ json_dumps_indent2 j) ∈
      (make_request api_key api_secret method endpoint params data now_ms
        (TransportOutcome.resp status text jsonBody)).log) ∧
    (jsonBody = none → ("Error response text: " ++ text) ∈
      (make_request api_key api_secret method endpoint params data now_ms
        (TransportOutcome.resp status text jsonBody)).log) ∧
    ("Error making request: " ++ msg) ∈
      (make_request api_key api_secret method endpoint params data now_ms
        (TransportOutcome.exc msg excResp)).log ∧
    (make_request api_key api_secret method endpoint params data now_ms
        (TransportOutcome.resp status text jsonBody)).log.head? ≠
      (make_request api_key api_secret method endpoint params data now_ms
        (TransportOutcome.exc msg excResp)).log.head? := by
  obtain ⟨hr1, hl1⟩ := make_request_ret_log api_key api_secret method endpoint params data
    now_ms (TransportOutcome.resp status text jsonBody) hm
  obtain ⟨hr2, hl2⟩ := make_request_ret_log api_key api_secret method endpoint params data
    now_ms (TransportOutcome.exc msg excResp) hm
  refine ⟨?_, ?_, ?_, ?_, ?_, ?_, ?_⟩
  · rw [hr1]
    cases jsonBody <;> simp [make_request_handle, hs]
  · rw [hr2]
    rcases excResp with _ | ⟨st, tx, jb⟩
    · simp [make_request_handle]
    · by_cases hlt : st < 400 <;> cases jb <;> simp [make_request_handle, hlt]
  · rw [hl1]
    cases jsonBody <;> simp [make_request_handle, hs]
  · intro j hj
    subst hj
    rw [hl1]
    simp [make_request_handle, hs]
  · intro hn
    subst hn
    rw [hl1]
    simp [make_request_handle, hs]
  · rw [hl2]
    rcases excResp with _ | ⟨st, tx, jb⟩
    · simp [make_request_handle]
    · by_cases hlt : st < 400 <;> cases jb <;> simp [make_request_handle, hlt]
  · rw [hl1, hl2, handle_resp_head status text jsonBody hs, handle_exc_head msg excResp]
    exact resp_exc_log_heads_differ status msg

theorem make_request_failure_outcomes_witness :
    (make_request "k" "s" "GET" "/user/balances/" [] none 0
        (TransportOutcome.resp 401 "unauthorized" none)).ret = Except.ok none ∧
    (make_request "k" "s" "GET" "/user/balances/" [] none 0
        (TransportOutcome.exc "connection refused" none)).ret = Except.ok none ∧
    ("API request failed with status code: " ++ Nat.repr 401) ∈
      (make_request "k" "s" "GET" "/user/balances/" [] none 0
        (TransportOutcome.resp 401 "unauthorized" none)).log ∧
    ("Error response text: " ++ "unauthorized") ∈
      (make_request "k" "s" "GET" "/user/balances/" [] none 0
        (TransportOutcome.resp 401 "unauthorized" none)).log ∧
    ("Error making request: " ++ "connection refused") ∈
      (make_request "k" "s" "GET" "/user/balances/" [] none 0
        (TransportOutcome.exc "connection refused" none)).log ∧
    (make_request "k" "s" "GET" "/user/balances/" [] none 0
        (TransportOutcome.resp 401 "unauthorized" none)).log.head? ≠
      (make_request "k" "s" "GET" "/user/balances/" [] none 0
        (TransportOutcome.exc "connection refused" none)).log.head? := by
  have h := make_request_failure_outcomes "k" "s" "GET" "/user/balances/" [] none 0
    401 "unauthorized" none "connection refused" none (Or.inl rfl) (by decide)
  exact ⟨h.1, h.2.1, h.2.2.1, h.2.2.2.2.1 rfl, h.2.2.2.2.2.1, h.2.2.2.2.2.2⟩

/-- Claim C8: if ticket issuance fails — the request errors out or the
response carries no `data`/`ticket` field, so `get_websocket_ticket` returns
`None` — then `main` never invokes `connect_and_subscribe`: the flow stops
after the ticket request. -/
theorem ticket_failure_blocks_connect (o : WsTicketOutcome)
    (h : get_websocket_ticket o = Except.ok none) :
    invokesConnect (ws_main o).1 = false := by
  unfold ws_main
  rw [h]
  rfl

theorem ticket_failure_blocks_connect_witness :
    get_websocket_ticket (WsTicketOutcome.exc "connection refused") = Except.ok none ∧
    invokesConnect (ws_main (WsTicketOutcome.exc "connection refused")).1 = false :=
  ⟨rfl, ticket_failure_blocks_connect (WsTicketOutcome.exc "connection refused") rfl⟩

/-- Every receive attempt the loop makes waits with the fixed 1000 ms bound. -/
theorem streamLoop_attempt_timeout (stream : Nat → WsRecv) :
    ∀ k i t, WsEvent.recvAttempt t ∈ (streamLoop stream i k).1 → t = 1000 := by
  intro k
  induction k with
  | zero => intro i t ht; simp [streamLoop] at ht
  | succ k ih =>
    intro i t ht
    cases hs : stream i <;> rw [streamLoop, hs] at ht <;>
      simp only [List.mem_cons, List.not_mem_nil, or_false] at ht
    · rcases ht with ht | ht | ht
      · exact WsEvent.recvAttempt.inj ht
      · exact absurd ht (by simp)
      · exact ih (i + 1) t ht
    · rcases ht with ht | ht | ht
      · exact WsEvent.recvAttempt.inj ht
      · exact absurd ht (by simp)
      · exact ih (i + 1) t ht
    · exact WsEvent.recvAttempt.inj ht

/-- The loop never makes more receive attempts than its budget. -/
theorem streamLoop_count_le (stream : Nat → WsRecv) :
    ∀ k i, ((streamLoop stream i k).1.countP isRecvAttempt) ≤ k := by
  intro k
  induction k with
  | zero => intro i; simp [streamLoop]
  | succ k ih =>
    intro i
    cases hs : stream i <;> rw [streamLoop, hs] <;>
      simp [List.countP_cons, isRecvAttempt]
    · exact ih (i + 1)
    · exact ih (i + 1)

/-- When no receive attempt within the budget raises, the loop carries no
exception out and makes exactly its budget of attempts: a timeout is not an
error and the loop continues to the next attempt. -/
theorem streamLoop_no_err (stream : Nat → WsRecv) :
    ∀ k i, (∀ j, j < k → isRecvErr (stream (i + j)) = false) →
      (streamLoop stream i k).2 = none ∧
      ((streamLoop stream i k).1.countP isRecvAttempt) = k := by
  intro k
  induction k with
  | zero => intro i _; simp [streamLoop]
  | succ k ih =>
    intro i hj
    have h0 : isRecvErr (stream i) = false := by simpa using hj 0 (Nat.succ_pos k)
    have hrest : ∀ j, j < k → isRecvErr (stream (i + 1 + j)) = false := by
      intro j hjk
      have := hj (j + 1) (Nat.succ_lt_succ hjk)
      simpa [Nat.add_assoc, Nat.add_comm 1 j] using this
    obtain ⟨hnone, hcount⟩ := ih (i + 1) hrest
    cases hs : stream i
    · rw [streamLoop, hs]
      simp [List.countP_cons, isRecvAttempt, hnone, hcount]
    · rw [streamLoop, hs]
      simp [List.countP_cons, isRecvAttempt, hnone, hcount]
    · rw [hs] at h0
      exact absurd h0 (by simp [isRecvErr])

/-- The loop itself never prints an error: `errorCaught` events only come from
the outer exception handler. -/
theorem streamLoop_no_errorCaught (stream : Nat → WsRecv) :
    ∀ k i e, e ∈ (streamLoop stream i k).1 → isErrorCaught e = false := by
  intro k
  induction k with
  | zero => intro i e he; simp [streamLoop] at he
  | succ k ih =>
    intro i e he
    cases hs : stream i <;> rw [streamLoop, hs] at he <;>
      simp only [List.mem_cons, List.not_mem_nil, or_false] at he
    · rcases he with rfl | rfl | he
      · rfl
      · rfl
      · exact ih (i + 1) e he
    · rcases he with rfl | rfl | he
      · rfl
      · rfl
      · exact ih (i + 1) e he
    · rw [he]
      rfl

/-- Claim C9: in the streaming phase of `connect_and_subscribe` every receive
attempt waits with the fixed 1-second (1000 ms) timeout; the attempt budget is
3, and a timeout is not an error — with no exception in the stream the loop
runs all 3 attempts, catches no error, and the run ends with the socket
release; the socket is released on every exit path of the opened connection,
including an exception mid-stream or during subscription. -/
theorem ws_receive_loop_bounded_and_closed (ticket : Json) (api_key api_secret : String)
    (now_ms : Nat) (subAck : Except String String) (stream : Nat → WsRecv) :
    (∀ t, WsEvent.recvAttempt t ∈
        connect_and_subscribe ticket api_key api_secret now_ms (Except.ok ()) subAck stream →
      t = 1000) ∧
    recvAttemptCount
        (connect_and_subscribe ticket api_key api_secret now_ms (Except.ok ()) subAck
          stream) ≤ 3 ∧
    WsEvent.socketClosed ∈
      connect_and_subscribe ticket api_key api_secret now_ms (Except.ok ()) subAck stream ∧
    (∀ ack, subAck = Except.ok ack → (∀ i, i < 3 → isRecvErr (stream i) = false) →
      recvAttemptCount
          (connect_and_subscribe ticket api_key api_secret now_ms (Except.ok ()) subAck
            stream) = 3 ∧
      hasErrorCaught
          (connect_and_subscribe ticket api_key api_secret now_ms (Except.ok ()) subAck
            stream) = false ∧
      (connect_and_subscribe ticket api_key api_secret now_ms (Except.ok ()) subAck
          stream).getLast? = some WsEvent.socketClosed) := by
  cases subAck with
  | error e =>
    refine ⟨?_, ?_, ?_, ?_⟩
    · intro t ht
      simp [connect_and_subscribe] at ht
    · simp [connect_and_subscribe, recvAttemptCount, List.countP_cons, isRecvAttempt]
    · simp [connect_and_subscribe]
    · intro ack hack
      exact absurd hack (by simp)
  | ok ack =>
    rcases hr : (streamLoop stream 0 3).2 with _ | e
    · have htr : connect_and_subscribe ticket api_key api_secret now_ms (Except.ok ())
          (Except.ok ack) stream =
          [WsEvent.connected (ws_connect_headers api_key api_secret (Nat.repr now_ms)),
           WsEvent.subscribeSent (ws_subscribe_payload ticket now_ms),
           WsEvent.subAckReceived ack] ++ (streamLoop stream 0 3).1 ++
            [WsEvent.socketClosed] := by
        simp [connect_and_subscribe, hr]
      refine ⟨?_, ?_, ?_, ?_⟩
      · intro t ht
        rw [htr] at ht
        simp at ht
        exact streamLoop_attempt_timeout stream 3 0 t ht
      · have hc := streamLoop_count_le stream 3 0
        simp [recvAttemptCount, htr, List.countP_append, List.countP_cons, isRecvAttempt]
        omega
      · rw [htr]
        simp
      · intro ack' hack hnoerr
        obtain ⟨hnone, hcount⟩ := streamLoop_no_err stream 3 0
          (by intro j hj; simpa using hnoerr j hj)
        refine ⟨?_, ?_, ?_⟩
        · simp [recvAttemptCount, htr, List.countP_append, List.countP_cons, isRecvAttempt]
          omega
        · have hany : ((streamLoop stream 0 3).1.any isErrorCaught) = false :=
            List.any_eq_false.mpr
              (fun x hx => by simp [streamLoop_no_errorCaught stream 3 0 x hx])
          simp [hasErrorCaught, htr, List.any_append, List.any_cons, isErrorCaught, hany]
        · rw [htr, List.getLast?_append_cons]
          rfl
    · have htr : connect_and_subscribe ticket api_key api_secret now_ms (Except.ok ())
          (Except.ok ack) stream =
          [WsEvent.connected (ws_connect_headers api_key api_secret (Nat.repr now_ms)),
           WsEvent.subscribeSent (ws_subscribe_payload ticket now_ms),
           WsEvent.subAckReceived ack] ++ (streamLoop stream 0 3).1 ++
            [WsEvent.socketClosed, WsEvent.errorCaught e] := by
        simp [connect_and_subscribe, hr]
      refine ⟨?_, ?_, ?_, ?_⟩
      · intro t ht
        rw [htr] at ht
        simp at ht
        exact streamLoop_attempt_timeout stream 3 0 t ht
      · have hc := streamLoop_count_le stream 3 0
        simp [recvAttemptCount, htr, List.countP_append, List.countP_cons, isRecvAttempt]
        omega
      · rw [htr]
        simp
      · intro ack' hack hnoerr
        obtain ⟨hnone, hcount⟩ := streamLoop_no_err stream 3 0
          (by intro j hj; simpa using hnoerr j hj)
        rw [hr] at hnone
        exact absurd hnone (by simp)

theorem ws_receive_loop_bounded_and_closed_witness :
    WsEvent.socketClosed ∈
      connect_and_subscribe (Json.str "T") "key" "secret" 1700000000000 (Except.ok ())
        (Except.ok "ack") allTimeouts ∧
    recvAttemptCount
        (connect_and_subscribe (Json.str "T") "key" "secret" 1700000000000 (Except.ok ())
          (Except.ok "ack") allTimeouts) = 3 ∧
    hasErrorCaught
        (connect_and_subscribe (Json.str "T") "key" "secret" 1700000000000 (Except.ok ())
          (Except.ok "ack") allTimeouts) = false ∧
    (connect_and_subscribe (Json.str "T") "key" "secret" 1700000000000 (Except.ok ())
        (Except.ok "ack") allTimeouts).getLast? = some WsEvent.socketClosed := by
  have h := ws_receive_loop_bounded_and_closed (Json.str "T") "key" "secret" 1700000000000
    (Except.ok "ack") allTimeouts
  have h4 := h.2.2.2 "ack" rfl (by decide)
  exact ⟨h.2.2.1, h4.1, h4.2.1, h4.2.2⟩
